import Mathlib

/-!
# Verification of the megalodon Misskey client façade and entity converters

Shallow embedding of `src/misskey.ts` and the Misskey converter namespace
(`MisskeyAPI.Converter` in `src/misskey/api_client.ts`).

Modelling conventions:
* Timestamps live on a single integer time axis (`Int`): `moment(p.expiresAt)`
  parses a stamp to an instant; `now.isAfter(expire)` is strict `expire < now`.
  The conversion-time clock read `moment()` inside `Converter.poll` becomes an
  explicit `now : Int` argument, since the TypeScript function reads ambient
  time.
* JavaScript truthiness on optional parameters (`if (limit)`, `if (max_id)`,
  `if (!status_id)`, `if (u.host)`) is modelled by explicit falsy tests:
  `none`, `some 0` and `some ""` are falsy.
* Request bodies are association lists `List (String × PVal)`, built in the
  same `Object.assign` order as the source. The access token `i` that
  `MisskeyAPI.Client.post` merges into every body below the façade layer is
  uniform and omitted; the façade-level body is what the claims speak about.
* The axios transport is an oracle `Transport`: for each call it either
  returns a well-typed response (the TypeScript generic `post<T>` trusts the
  response to have type `T`) or fails.  A façade operation returns the list of
  calls it issued together with its `Except` outcome.
-/

namespace Megalodon

/-- Misskey-native visibility enumeration (`public | home | followers | specified`). -/
inductive MVisibility
  | public
  | home
  | followers
  | specified
deriving DecidableEq, Repr

/-- Unified (Mastodon-style) visibility enumeration
(`public | unlisted | private | direct`); `private` is a Lean keyword, so the
constructor is named `priv`. -/
inductive UVisibility
  | public
  | unlisted
  | priv
  | direct
deriving DecidableEq, Repr

/-- JavaScript falsiness of an optional string argument: absent (`undefined` /
`null`) and the empty string are falsy. -/
def truthyStr : Option String → Bool
  | none => false
  | some s => s ≠ ""

/-- JavaScript falsiness of an optional number argument: absent and `0` are falsy. -/
def truthyInt : Option Int → Bool
  | none => false
  | some n => n ≠ 0

namespace MisskeyEntity

/-- Misskey emoji entity (fields used by the converters). -/
structure Emoji where
  name : String
  url : String
deriving DecidableEq, Repr

/-- Misskey user entity (fields used by `Converter.user`). -/
structure User where
  id : String
  username : String
  host : Option String
  name : String
  avatarUrl : String
  avatarColor : String
  emojis : List Emoji
deriving DecidableEq, Repr

/-- Misskey detailed user entity (fields used by `Converter.userDetail`). -/
structure UserDetail where
  id : String
  username : String
  host : Option String
  name : String
  description : String
  createdAt : String
  followersCount : Nat
  followingCount : Nat
  notesCount : Nat
  isBot : Bool
  isLocked : Bool
  avatarUrl : String
  avatarColor : String
  bannerUrl : String
  bannerColor : String
  emojis : List Emoji
deriving DecidableEq, Repr

/-- Misskey poll choice (`text`, `votes`, `isVoted`). -/
structure Choice where
  text : String
  votes : Nat
  isVoted : Bool
deriving DecidableEq, Repr

/-- Misskey poll entity: expiry instant, multiple flag, choices.  The native
shape carries no identifier field of its own. -/
structure Poll where
  expiresAt : Int
  multiple : Bool
  choices : List Choice
deriving DecidableEq, Repr

/-- Misskey drive file entity (fields used by `Converter.file` and the
`sensitive` derivation in `Converter.note`). -/
structure File where
  id : String
  url : String
  thumbnailUrl : String
  isSensitive : Bool
deriving DecidableEq, Repr

/-- Misskey note entity.  Recursive: a note may embed a renoted note and the
note it replies to, so it is an inductive rather than a structure. -/
inductive Note
  | mk
      (id : String)
      (createdAt : String)
      (userId : String)
      (user : User)
      (text : String)
      (cw : Option String)
      (visibility : MVisibility)
      (renoteCount : Nat)
      (repliesCount : Nat)
      (reactions : List (String × Nat))
      (emojis : List Emoji)
      (fileIds : List String)
      (files : Option (List File))
      (replyId : Option String)
      (renoteId : Option String)
      (renote : Option Note)
      (reply : Option Note)
      (poll : Option Poll)

/-- The note's own identifier. -/
def Note.id : Note → String
  | .mk i _ _ _ _ _ _ _ _ _ _ _ _ _ _ _ _ _ => i

/-- The note's author. -/
def Note.user : Note → User
  | .mk _ _ _ u _ _ _ _ _ _ _ _ _ _ _ _ _ _ => u

/-- The note's embedded poll, if any. -/
def Note.poll : Note → Option Poll
  | .mk _ _ _ _ _ _ _ _ _ _ _ _ _ _ _ _ _ p => p

/-- The note renoted by this note, if any. -/
def Note.renote : Note → Option Note
  | .mk _ _ _ _ _ _ _ _ _ _ _ _ _ _ _ rn _ _ => rn

/-- Misskey relation entity returned by `/api/users/relation`. -/
structure Relation where
  id : String
  isFollowing : Bool
  hasPendingFollowRequestFromYou : Bool
  hasPendingFollowRequestToYou : Bool
  isFollowed : Bool
  isBlocking : Bool
  isBlocked : Bool
  isMuted : Bool
deriving DecidableEq, Repr

/-- Misskey favorite entity: `/api/i/favorites` returns records whose `note`
field carries the favourited note (only that field is read by the façade). -/
structure Favorite where
  id : String
  createdAt : String
  note : Note

end MisskeyEntity

namespace MegalodonEntity

/-- Unified emoji entity. -/
structure Emoji where
  shortcode : String
  static_url : String
  url : String
  visible_in_picker : Bool
deriving DecidableEq, Repr

/-- Unified account entity.  Fields the Misskey backend cannot populate are
declared neutral defaults in the converter, never omitted. -/
structure Account where
  id : String
  username : String
  acct : String
  display_name : String
  locked : Bool
  created_at : String
  followers_count : Nat
  following_count : Nat
  statuses_count : Nat
  note : String
  url : String
  avatar : String
  avatar_static : String
  header : String
  header_static : String
  emojis : List Emoji
  moved : Option String
  fields : Option (List (String × String))
  bot : Option Bool
deriving DecidableEq, Repr

/-- Unified poll option. -/
structure PollOption where
  title : String
  votes_count : Nat
deriving DecidableEq, Repr

/-- Unified poll entity. -/
structure Poll where
  id : String
  expires_at : Int
  expired : Bool
  multiple : Bool
  votes_count : Nat
  options : List PollOption
  voted : Bool
deriving DecidableEq, Repr

/-- Unified media attachment entity. -/
structure Attachment where
  id : String
  type : String
  url : String
  remote_url : String
  preview_url : String
  text_url : String
  meta : Option String
  description : Option String
deriving DecidableEq, Repr

/-- Unified relationship entity. -/
structure Relationship where
  id : String
  following : Bool
  followed_by : Bool
  blocking : Bool
  muting : Bool
  muting_notifications : Bool
  requested : Bool
  domain_blocking : Bool
  showing_reblogs : Bool
  endorsed : Bool
deriving DecidableEq, Repr

/-- Unified status entity.  Recursive through the nested `reblog`, so an
inductive.  Constructor argument order follows the object literal in
`Converter.note`. -/
inductive Status
  | mk
      (id : String)
      (uri : String)
      (url : String)
      (account : Account)
      (in_reply_to_id : Option String)
      (in_reply_to_account_id : Option String)
      (reblog : Option Status)
      (content : String)
      (created_at : String)
      (emojis : List Emoji)
      (replies_count : Nat)
      (reblogs_count : Nat)
      (favourites_count : Nat)
      (reblogged : Bool)
      (favourited : Bool)
      (muted : Bool)
      (sensitive : Bool)
      (spoiler_text : String)
      (visibility : UVisibility)
      (media_attachments : List Attachment)
      (mentions : List String)
      (tags : List String)
      (card : Option String)
      (poll : Option Poll)
      (application : Option String)
      (language : Option String)
      (pinned : Option Bool)

/-- The unified status's identifier. -/
def Status.id : Status → String
  | .mk i _ _ _ _ _ _ _ _ _ _ _ _ _ _ _ _ _ _ _ _ _ _ _ _ _ _ => i

/-- The unified status's account. -/
def Status.account : Status → Account
  | .mk _ _ _ a _ _ _ _ _ _ _ _ _ _ _ _ _ _ _ _ _ _ _ _ _ _ _ => a

/-- The unified status's poll, if any. -/
def Status.poll : Status → Option Poll
  | .mk _ _ _ _ _ _ _ _ _ _ _ _ _ _ _ _ _ _ _ _ _ _ _ p _ _ _ => p

/-- The unified status's nested reblogged status, if any. -/
def Status.reblog : Status → Option Status
  | .mk _ _ _ _ _ _ r _ _ _ _ _ _ _ _ _ _ _ _ _ _ _ _ _ _ _ _ => r

/-- Unified conversation entity. -/
structure Conversation where
  id : String
  accounts : List Account
  last_status : Option Status
  unread : Bool

end MegalodonEntity

namespace Converter

open MisskeyEntity MegalodonEntity

/-- `MisskeyAPI.Converter.emoji`. -/
def emoji (e : MisskeyEntity.Emoji) : MegalodonEntity.Emoji :=
  { shortcode := e.name
    static_url := e.url
    url := e.url
    visible_in_picker := true }

/-- `MisskeyAPI.Converter.user`: the qualified handle gets a `@host` suffix
only when `u.host` is truthy (present and nonempty). -/
def user (u : MisskeyEntity.User) : Account :=
  let acct : String :=
    if truthyStr u.host then u.username ++ "@" ++ u.host.getD "" else u.username
  { id := u.id
    username := u.username
    acct := acct
    display_name := u.name
    locked := false
    created_at := ""
    followers_count := 0
    following_count := 0
    statuses_count := 0
    note := ""
    url := ""
    avatar := u.avatarUrl
    avatar_static := u.avatarColor
    header := ""
    header_static := ""
    emojis := u.emojis.map emoji
    moved := none
    fields := none
    bot := none }

/-- `MisskeyAPI.Converter.userDetail`. -/
def userDetail (u : UserDetail) : Account :=
  let acct : String :=
    if truthyStr u.host then u.username ++ "@" ++ u.host.getD "" else u.username
  { id := u.id
    username := u.username
    acct := acct
    display_name := u.name
    locked := u.isLocked
    created_at := u.createdAt
    followers_count := u.followersCount
    following_count := u.followingCount
    statuses_count := u.notesCount
    note := u.description
    url := acct
    avatar := u.avatarUrl
    avatar_static := u.avatarColor
    header := u.bannerUrl
    header_static := u.bannerColor
    emojis := u.emojis.map emoji
    moved := none
    fields := none
    bot := some u.isBot }

/-- `MisskeyAPI.Converter.visibility`: Misskey → unified visibility table. -/
def visibility : MVisibility → UVisibility
  | .public => .public
  | .home => .unlisted
  | .followers => .priv
  | .specified => .direct

/-- `MisskeyAPI.Converter.encodeVisibility`: unified → Misskey visibility table. -/
def encodeVisibility : UVisibility → MVisibility
  | .public => .public
  | .unlisted => .home
  | .priv => .followers
  | .direct => .specified

/-- `MisskeyAPI.Converter.file`. -/
def file (f : MisskeyEntity.File) : Attachment :=
  { id := f.id
    type := "image"
    url := f.url
    remote_url := f.url
    preview_url := f.thumbnailUrl
    text_url := f.url
    meta := none
    description := none }

/-- `MisskeyAPI.Converter.relation`. -/
def relation (r : Relation) : Relationship :=
  { id := r.id
    following := r.isFollowing
    followed_by := r.isFollowed
    blocking := r.isBlocking
    muting := r.isMuted
    muting_notifications := false
    requested := r.hasPendingFollowRequestFromYou
    domain_blocking := false
    showing_reblogs := true
    endorsed := false }

/-- `MisskeyAPI.Converter.choice`. -/
def choice (c : Choice) : PollOption :=
  { title := c.text
    votes_count := c.votes }

/-- `MisskeyAPI.Converter.poll`.  The source reads the ambient clock
(`const now = moment()`); here `now` is the explicit conversion instant.
`now.isAfter(expire)` is strict order, `reduce((sum, c) => sum + c.votes, 0)`
is a left fold from 0, and the unified `id` is the literal empty string. -/
def poll (p : MisskeyEntity.Poll) (now : Int) : MegalodonEntity.Poll :=
  { id := ""
    expires_at := p.expiresAt
    expired := decide (p.expiresAt < now)
    multiple := p.multiple
    votes_count := p.choices.foldl (fun sum c => sum + c.votes) 0
    options := p.choices.map choice
    voted := p.choices.any (fun c => c.isVoted) }

/-- `MisskeyAPI.Converter.note`: recursively converts the embedded renote;
`sensitive` holds when some attached file is individually flagged sensitive;
`spoiler_text` is `cw` when truthy, else the empty string.  `now` is the
conversion instant threaded to the embedded poll. -/
def note : MisskeyEntity.Note → Int → Status
  | .mk i ca _uid u text cw vis rnc rc _reac em _fids fs rid _rnid none _rep p, now =>
    .mk i "" "" (user u) rid none
      none
      text ca (em.map emoji) rc rnc 0 false false false
      (match fs with | some l => l.any (fun f => f.isSensitive) | none => false)
      (match cw with | some c => c | none => "")
      (visibility vis)
      (match fs with | some l => l.map file | none => [])
      [] [] none (p.map (fun q => poll q now)) none none none
  | .mk i ca _uid u text cw vis rnc rc _reac em _fids fs rid _rnid (some rn) _rep p, now =>
    .mk i "" "" (user u) rid none
      (some (note rn now))
      text ca (em.map emoji) rc rnc 0 false false false
      (match fs with | some l => l.any (fun f => f.isSensitive) | none => false)
      (match cw with | some c => c | none => "")
      (visibility vis)
      (match fs with | some l => l.map file | none => [])
      [] [] none (p.map (fun q => poll q now)) none none none

/-- `MisskeyAPI.Converter.noteToConversation`. -/
def noteToConversation (n : MisskeyEntity.Note) (now : Int) : Conversation :=
  let accounts : List Account :=
    match n with
    | .mk _ _ _ u _ _ _ _ _ _ _ _ _ _ _ _ (some rep) _ => [user u, user rep.user]
    | .mk _ _ _ u _ _ _ _ _ _ _ _ _ _ _ _ none _ => [user u]
  { id := n.id
    accounts := accounts
    last_status := some (note n now)
    unread := false }

end Converter

/-- The megalodon error taxonomy raised by the Misskey façade
(`NoImplementedError`, `ArgumentError`, `UnexpectedError` from
`src/megalodon.ts`) together with transport-level failures passed through
unchanged from axios. -/
inductive Err
  | noImplemented (msg : String)
  | argument (msg : String)
  | unexpected (msg : String)
  | transport (code : Int) (msg : String)
deriving DecidableEq, Repr

/-- A JSON-ish body parameter value; `undef` models JavaScript `undefined`
(an out-of-range array index). -/
inductive PVal
  | str (s : String)
  | num (n : Int)
  | bool (b : Bool)
  | undefined
deriving DecidableEq, Repr

/-- Indexing a JavaScript array: `l[i]` is `undefined` past the end. -/
def pnum (o : Option Int) : PVal :=
  match o with
  | some n => .num n
  | none => .undefined

/-- A string drawn from a JavaScript array index: `undefined` past the end. -/
def pstr (o : Option String) : PVal :=
  match o with
  | some s => .str s
  | none => .undefined

/-- One transport call as issued by the façade: endpoint path plus the body
built by the façade (the `i` access token merged in by `Client.post` is
uniform and kept below this interface). -/
structure Call where
  path : String
  params : List (String × PVal)
deriving DecidableEq, Repr

/-- Response types the modelled endpoints are trusted to return: the
TypeScript generic `Client.post<T>` casts the JSON response to `T` without
validation, so the transport oracle is indexed by the expected shape. -/
inductive RTy
  | empty
  | relation
  | note
  | noteList
  | favList
deriving DecidableEq, Repr

/-- Interpretation of a response type tag. -/
def RTy.interp : RTy → Type
  | .empty => Unit
  | .relation => MisskeyEntity.Relation
  | .note => MisskeyEntity.Note
  | .noteList => List MisskeyEntity.Note
  | .favList => List MisskeyEntity.Favorite

/-- The transport oracle standing for axios: each call either yields a
response of the expected shape or fails. -/
structure Transport where
  post : (ty : RTy) → Call → Except Err ty.interp

/-- Result of one façade operation: the transport calls it issued, in order,
together with its outcome. -/
abbrev FacadeResult (α : Type) := List Call × Except Err α

/-- The body `{ userId: id }` shared by the relationship-changing endpoints. -/
def userIdParams (id : String) : List (String × PVal) :=
  [("userId", PVal.str id)]

/-- The relationship-fetch call `/api/users/relation` issued as the second
step of every two-step relationship operation. -/
def relationCall (id : String) : Call :=
  ⟨"/api/users/relation", userIdParams id⟩

/-- Boolean key membership in a request body. -/
def hasKey (ps : List (String × PVal)) (k : String) : Bool :=
  ps.any (fun kv => kv.fst = k)

namespace Facade

open MegalodonEntity

/-- Placeholder for the unified Filter entity: the Misskey façade never
constructs one (every filter operation is unsupported), so its fields are
irrelevant here. -/
structure Filter

/-- `Misskey.getBookmarks`: rejects with `NoImplementedError`, no transport
call. -/
def getBookmarks (_t : Transport) (_limit : Option Int)
    (_max_id _since_id _min_id : Option String) : FacadeResult (List Status) :=
  ([], .error (.noImplemented "misskey does not support"))

/-- `Misskey.getFilters`: rejects with `NoImplementedError`, no transport
call. -/
def getFilters (_t : Transport) : FacadeResult (List Filter) :=
  ([], .error (.noImplemented "misskey does not support"))

/-- `Misskey.getPoll`: rejects with `NoImplementedError`, no transport call. -/
def getPoll (_t : Transport) (_id : String) : FacadeResult MegalodonEntity.Poll :=
  ([], .error (.noImplemented "misskey does not support"))

/-- `Misskey.bookmarkStatus`: rejects with `NoImplementedError`, no transport
call. -/
def bookmarkStatus (_t : Transport) (_id : String) : FacadeResult Status :=
  ([], .error (.noImplemented "misskey does not support"))

/-- `Misskey.getDomainBlocks`: rejects with `NoImplementedError`, no
transport call. -/
def getDomainBlocks (_t : Transport) (_limit : Option Int)
    (_max_id _min_id : Option String) : FacadeResult (List String) :=
  ([], .error (.noImplemented "misskey does not support"))

/-- `Misskey.followAccount`: create the follow (note the source path has no
leading slash), then fetch the relationship. -/
def followAccount (t : Transport) (id : String) (_reblog : Bool) :
    FacadeResult Relationship :=
  let c1 : Call := ⟨"api/following/create", userIdParams id⟩
  match t.post .empty c1 with
  | .error e => ([c1], .error e)
  | .ok _ =>
    match t.post .relation (relationCall id) with
    | .error e => ([c1, relationCall id], .error e)
    | .ok r => ([c1, relationCall id], .ok (Converter.relation r))

/-- `Misskey.unfollowAccount`. -/
def unfollowAccount (t : Transport) (id : String) : FacadeResult Relationship :=
  let c1 : Call := ⟨"api/following/delete", userIdParams id⟩
  match t.post .empty c1 with
  | .error e => ([c1], .error e)
  | .ok _ =>
    match t.post .relation (relationCall id) with
    | .error e => ([c1, relationCall id], .error e)
    | .ok r => ([c1, relationCall id], .ok (Converter.relation r))

/-- `Misskey.blockAccount`. -/
def blockAccount (t : Transport) (id : String) : FacadeResult Relationship :=
  let c1 : Call := ⟨"api/blocking/create", userIdParams id⟩
  match t.post .empty c1 with
  | .error e => ([c1], .error e)
  | .ok _ =>
    match t.post .relation (relationCall id) with
    | .error e => ([c1, relationCall id], .error e)
    | .ok r => ([c1, relationCall id], .ok (Converter.relation r))

/-- `Misskey.unblockAccount`. -/
def unblockAccount (t : Transport) (id : String) : FacadeResult Relationship :=
  let c1 : Call := ⟨"api/blocking/delete", userIdParams id⟩
  match t.post .empty c1 with
  | .error e => ([c1], .error e)
  | .ok _ =>
    match t.post .relation (relationCall id) with
    | .error e => ([c1, relationCall id], .error e)
    | .ok r => ([c1, relationCall id], .ok (Converter.relation r))

/-- `Misskey.muteAccount`. -/
def muteAccount (t : Transport) (id : String) (_notifications : Bool) :
    FacadeResult Relationship :=
  let c1 : Call := ⟨"api/mute/create", userIdParams id⟩
  match t.post .empty c1 with
  | .error e => ([c1], .error e)
  | .ok _ =>
    match t.post .relation (relationCall id) with
    | .error e => ([c1, relationCall id], .error e)
    | .ok r => ([c1, relationCall id], .ok (Converter.relation r))

/-- `Misskey.unmuteAccount`. -/
def unmuteAccount (t : Transport) (id : String) : FacadeResult Relationship :=
  let c1 : Call := ⟨"api/mute/delete", userIdParams id⟩
  match t.post .empty c1 with
  | .error e => ([c1], .error e)
  | .ok _ =>
    match t.post .relation (relationCall id) with
    | .error e => ([c1, relationCall id], .error e)
    | .ok r => ([c1, relationCall id], .ok (Converter.relation r))

/-- `Misskey.acceptFollowRequest`. -/
def acceptFollowRequest (t : Transport) (id : String) : FacadeResult Relationship :=
  let c1 : Call := ⟨"/api/following/requests/accept", userIdParams id⟩
  match t.post .empty c1 with
  | .error e => ([c1], .error e)
  | .ok _ =>
    match t.post .relation (relationCall id) with
    | .error e => ([c1, relationCall id], .error e)
    | .ok r => ([c1, relationCall id], .ok (Converter.relation r))

/-- `Misskey.rejectFollowRequest`. -/
def rejectFollowRequest (t : Transport) (id : String) : FacadeResult Relationship :=
  let c1 : Call := ⟨"/api/following/requests/reject", userIdParams id⟩
  match t.post .empty c1 with
  | .error e => ([c1], .error e)
  | .ok _ =>
    match t.post .relation (relationCall id) with
    | .error e => ([c1, relationCall id], .error e)
    | .ok r => ([c1, relationCall id], .ok (Converter.relation r))

/-- `Misskey.getRelationship`: encodes `ids[0]` as the sole `userId`. -/
def getRelationship (t : Transport) (ids : List String) : FacadeResult Relationship :=
  let c : Call := ⟨"/api/users/relation", [("userId", pstr (ids.get? 0))]⟩
  match t.post .relation c with
  | .error e => ([c], .error e)
  | .ok r => ([c], .ok (Converter.relation r))

/-- `Misskey.addAccountsToList`: encodes only `account_ids[0]`. -/
def addAccountsToList (t : Transport) (id : String) (account_ids : List String) :
    FacadeResult Unit :=
  let c : Call := ⟨"/api/users/lists/push",
    [("listId", PVal.str id), ("userId", pstr (account_ids.get? 0))]⟩
  match t.post .empty c with
  | .error e => ([c], .error e)
  | .ok u => ([c], .ok u)

/-- `Misskey.deleteAccountsFromList`: encodes only `account_ids[0]`. -/
def deleteAccountsFromList (t : Transport) (id : String) (account_ids : List String) :
    FacadeResult Unit :=
  let c : Call := ⟨"/api/users/lists/pull",
    [("listId", PVal.str id), ("userId", pstr (account_ids.get? 0))]⟩
  match t.post .empty c with
  | .error e => ([c], .error e)
  | .ok u => ([c], .ok u)

/-- `Misskey.votePoll`: a falsy `status_id` (absent or empty) is an
`ArgumentError` before any transport call; otherwise vote with `choices[0]`,
re-fetch the note, and fail with `UnexpectedError` when the note carries no
poll. -/
def votePoll (t : Transport) (_id : String) (choices : List Int)
    (status_id : Option String) (now : Int) : FacadeResult MegalodonEntity.Poll :=
  if truthyStr status_id then
    let sid := status_id.getD ""
    let c1 : Call := ⟨"/api/notes/polls/vote",
      [("noteId", PVal.str sid), ("choice", pnum (choices.get? 0))]⟩
    match t.post .empty c1 with
    | .error e => ([c1], .error e)
    | .ok _ =>
      let c2 : Call := ⟨"/api/notes/show", [("noteId", PVal.str sid)]⟩
      match t.post .note c2 with
      | .error e => ([c1, c2], .error e)
      | .ok n =>
        match (Converter.note n now).poll with
        | none => ([c1, c2], .error (.unexpected "poll does not exist"))
        | some p => ([c1, c2], .ok p)
  else
    ([], .error (.argument "status_id is required"))

/-- Body of `Misskey.getFavourites`: keys appended in `Object.assign` order
(`limit`, then `untilId` from `max_id`, then `sinceId` from `min_id`), each
only when the argument is truthy. -/
def getFavouritesParams (limit : Option Int) (max_id min_id : Option String) :
    List (String × PVal) :=
  (if truthyInt limit then [("limit", PVal.num (limit.getD 0))] else []) ++
  (if truthyStr max_id then [("untilId", PVal.str (max_id.getD ""))] else []) ++
  (if truthyStr min_id then [("sinceId", PVal.str (min_id.getD ""))] else [])

/-- `Misskey.getFavourites`. -/
def getFavourites (t : Transport) (limit : Option Int)
    (max_id min_id : Option String) (now : Int) : FacadeResult (List Status) :=
  let c : Call := ⟨"/api/i/favorites", getFavouritesParams limit max_id min_id⟩
  match t.post .favList c with
  | .error e => ([c], .error e)
  | .ok favs => ([c], .ok (favs.map (fun fav => Converter.note fav.note now)))

/-- Body of `Misskey.getHomeTimeline`: starts from the constant
`{ withFiles: false }`, then the truthy pagination keys in source order. -/
def getHomeTimelineParams (limit : Option Int) (max_id since_id : Option String) :
    List (String × PVal) :=
  [("withFiles", PVal.bool false)] ++
  (if truthyInt limit then [("limit", PVal.num (limit.getD 0))] else []) ++
  (if truthyStr max_id then [("untilId", PVal.str (max_id.getD ""))] else []) ++
  (if truthyStr since_id then [("sinceId", PVal.str (since_id.getD ""))] else [])

/-- `Misskey.getHomeTimeline`. -/
def getHomeTimeline (t : Transport) (_local : Option Bool) (limit : Option Int)
    (max_id since_id _min_id : Option String) (now : Int) :
    FacadeResult (List Status) :=
  let c : Call := ⟨"/api/notes/timeline", getHomeTimelineParams limit max_id since_id⟩
  match t.post .noteList c with
  | .error e => ([c], .error e)
  | .ok notes => ([c], .ok (notes.map (fun n => Converter.note n now)))

/-- Body of `Misskey.getConversationTimeline`: starts from the constant
`{ visibility: 'specified' }`, then the truthy pagination keys in source
order. -/
def getConversationTimelineParams (limit : Option Int)
    (max_id since_id : Option String) : List (String × PVal) :=
  [("visibility", PVal.str "specified")] ++
  (if truthyInt limit then [("limit", PVal.num (limit.getD 0))] else []) ++
  (if truthyStr max_id then [("untilId", PVal.str (max_id.getD ""))] else []) ++
  (if truthyStr since_id then [("sinceId", PVal.str (since_id.getD ""))] else [])

/-- `Misskey.getConversationTimeline`. -/
def getConversationTimeline (t : Transport) (limit : Option Int)
    (max_id since_id _min_id : Option String) (now : Int) :
    FacadeResult (List Conversation) :=
  let c : Call := ⟨"/api/notes/mentions",
    getConversationTimelineParams limit max_id since_id⟩
  match t.post .noteList c with
  | .error e => ([c], .error e)
  | .ok notes => ([c], .ok (notes.map (fun n => Converter.noteToConversation n now)))

end Facade

/-- A concrete three-choice poll with vote counts 3, 5, 2 expiring at
instant 10, used to evaluate the converters. -/
def wPoll : MisskeyEntity.Poll :=
  ⟨10, false, [⟨"a", 3, false⟩, ⟨"b", 5, true⟩, ⟨"c", 2, false⟩]⟩

/-- A concrete remote user. -/
def wUser : MisskeyEntity.User :=
  ⟨"u1", "alice", some "example.com", "Alice", "https://img/av.png", "#fff", []⟩

/-- A concrete note with id `note1` carrying `wPoll` and no renote. -/
def wNote : MisskeyEntity.Note :=
  .mk "note1" "2020-01-01T00:00:00Z" "u1" wUser "hello" none .public 0 0
    [] [] [] none none none none none (some wPoll)

/-- A well-typed default response per expected shape, for concrete transport
oracles. -/
def RTy.defaultVal : (ty : RTy) → ty.interp
  | .empty => ()
  | .relation => ⟨"u1", true, false, false, false, false, false, false⟩
  | .note => wNote
  | .noteList => []
  | .favList => []

/-- A transport oracle that answers every call successfully. -/
def okT : Transport :=
  ⟨fun ty _ => .ok (RTy.defaultVal ty)⟩

/-- A transport oracle that fails every call with HTTP 500. -/
def failT : Transport :=
  ⟨fun _ _ => .error (.transport 500 "boom")⟩

/-- A transport oracle where only the relationship-fetch endpoint fails: the
first step of a two-step operation succeeds, the second fails. -/
def flakyT : Transport :=
  ⟨fun ty c =>
    if c.path = "/api/users/relation" then .error (.transport 502 "relation down")
    else .ok (RTy.defaultVal ty)⟩

/-- The two-step contract of a relationship operation whose first call posts
`{userId: id}` to `p1`: a failing first call short-circuits — the second call
is never issued and the failure propagates unchanged — and a failing second
call fails the whole operation after exactly the two calls. -/
def TwoStepSpec (op : Transport → String → FacadeResult MegalodonEntity.Relationship)
    (p1 : String) : Prop :=
  (∀ t id e, t.post .empty ⟨p1, userIdParams id⟩ = .error e →
      op t id = ([⟨p1, userIdParams id⟩], .error e)) ∧
  (∀ t id e, t.post .empty ⟨p1, userIdParams id⟩ = .ok () →
      t.post .relation (relationCall id) = .error e →
      op t id = ([⟨p1, userIdParams id⟩, relationCall id], .error e))

/-- C1: every unified operation classified as unsupported on the Misskey
backend (getBookmarks, getFilters, getPoll, bookmarkStatus, getDomainBlocks)
rejects immediately with the NotSupported error — `NoImplementedError
"misskey does not support"` in the source — and issues no transport call at
all, for all argument values. -/
theorem unsupported_ops_reject_without_transport :
    (∀ t l m s mi, Facade.getBookmarks t l m s mi =
        ([], .error (.noImplemented "misskey does not support"))) ∧
    (∀ t, Facade.getFilters t =
        ([], .error (.noImplemented "misskey does not support"))) ∧
    (∀ t i, Facade.getPoll t i =
        ([], .error (.noImplemented "misskey does not support"))) ∧
    (∀ t i, Facade.bookmarkStatus t i =
        ([], .error (.noImplemented "misskey does not support"))) ∧
    (∀ t l m mi, Facade.getDomainBlocks t l m mi =
        ([], .error (.noImplemented "misskey does not support"))) :=
  ⟨fun _ _ _ _ _ => rfl, fun _ => rfl, fun _ _ => rfl, fun _ _ => rfl,
   fun _ _ _ _ => rfl⟩

/-- C2: the two visibility translation tables form a total bijection —
decoding after encoding is the identity on the four unified values, and
encoding after decoding is the identity on the four Misskey values. -/
theorem visibility_bijection :
    (∀ v : UVisibility, Converter.visibility (Converter.encodeVisibility v) = v) ∧
    (∀ w : MVisibility, Converter.encodeVisibility (Converter.visibility w) = w) :=
  ⟨fun v => by cases v <;> rfl, fun w => by cases w <;> rfl⟩

/-- The left fold summing choice votes equals the accumulator plus the sum of
the per-choice vote counts. -/
theorem foldl_add_votes (l : List MisskeyEntity.Choice) (n : Nat) :
    l.foldl (fun sum c => sum + c.votes) n
      = n + (l.map MisskeyEntity.Choice.votes).sum := by
  induction l generalizing n with
  | nil => simp
  | cons c l ih => simp [ih, Nat.add_assoc]

/-- C3: for every native poll and conversion instant, the converted poll's
`votes_count` is the sum of the per-option vote counts of the native choices
(the native poll carries no total field it could be taken from instead). -/
theorem poll_votes_count_is_sum (p : MisskeyEntity.Poll) (now : Int) :
    (Converter.poll p now).votes_count
      = (p.choices.map MisskeyEntity.Choice.votes).sum := by
  simp [Converter.poll, foldl_add_votes]

/-- C3 witness: the poll with vote counts 3, 5, 2 converts to
`votes_count = 10`. -/
theorem poll_votes_count_is_sum_witness :
    (Converter.poll wPoll 0).votes_count = 10 := by
  have h := poll_votes_count_is_sum wPoll 0
  simpa using h

/-- C4: the converted poll is `expired` exactly on the strict side of the
conversion-time clock — `true` when `expiresAt` is strictly in the past,
`false` when strictly in the future. -/
theorem poll_expired_iff_past (p : MisskeyEntity.Poll) (now : Int) :
    (p.expiresAt < now → (Converter.poll p now).expired = true) ∧
    (now < p.expiresAt → (Converter.poll p now).expired = false) := by
  constructor <;> intro h <;> simp [Converter.poll] <;> omega

/-- C4 witness: `wPoll` expires at instant 10, so it is expired at 20 and not
expired at 0. -/
theorem poll_expired_iff_past_witness :
    (Converter.poll wPoll 20).expired = true ∧
    (Converter.poll wPoll 0).expired = false :=
  ⟨(poll_expired_iff_past wPoll 20).1 (by decide),
   (poll_expired_iff_past wPoll 0).2 (by decide)⟩

/-- C5 counterexample: converting the concrete note `note1` preserves the
note's id, but the unified poll nested inside it gets the empty string as id —
`Converter.poll` writes the literal `''` and copies no native identity at
all, so the poll clause of the claim fails at this input. -/
theorem poll_id_counterexample :
    (Converter.note wNote 0).id = "note1" ∧
    ((Converter.note wNote 0).poll).map (fun q => q.id) = some "" :=
  ⟨rfl, rfl⟩

/-- C5 amended: the account and status converters preserve the native id
character for character; the native poll carries no identity field, and the
converted poll's id is always the literal empty string. -/
theorem id_preservation_amended :
    (∀ u, (Converter.user u).id = u.id) ∧
    (∀ u, (Converter.userDetail u).id = u.id) ∧
    (∀ n now, (Converter.note n now).id = n.id) ∧
    (∀ p now, (Converter.poll p now).id = "") := by
  refine ⟨fun u => rfl, fun u => rfl, fun n now => ?_, fun p now => rfl⟩
  cases n with
  | mk i ca uid u tx cw vis rnc rc reac em fids fs rid rnid rn rep pl =>
    cases rn <;> rfl

/-- C6 counterexample: the poll converter depends on the conversion-time
clock — converting the same native poll at instants 0 and 20 (straddling its
expiry 10) yields different unified entities, so two runs of the source
function, which reads `moment()` itself, need not agree. -/
theorem poll_clock_dependence :
    Converter.poll wPoll 0 ≠ Converter.poll wPoll 20 := by decide

/-- C6 amended: each converter is a deterministic function of its input and
the conversion-time clock: at any fixed clock instant converting twice yields
identical entities, and two conversions of a poll at different instants agree
on every field except possibly `expired`. -/
theorem converter_determinism_amended :
    (∀ u, Converter.user u = Converter.user u) ∧
    (∀ n now, Converter.note n now = Converter.note n now) ∧
    (∀ p now, Converter.poll p now = Converter.poll p now) ∧
    (∀ p t1 t2, Converter.poll p t1 =
        { Converter.poll p t2 with expired := decide (p.expiresAt < t1) }) :=
  ⟨fun _ => rfl, fun _ _ => rfl, fun _ _ => rfl, fun _ _ _ => rfl⟩

/-- C7: each of the eight two-step relationship operations short-circuits —
if the first backend call fails the relationship fetch is never attempted and
the failure propagates unchanged, and if the first call succeeds while the
relationship fetch fails the operation as a whole fails after both calls. -/
theorem twoStep_short_circuit :
    (∀ r, TwoStepSpec (fun t id => Facade.followAccount t id r)
        "api/following/create") ∧
    TwoStepSpec Facade.unfollowAccount "api/following/delete" ∧
    TwoStepSpec Facade.blockAccount "api/blocking/create" ∧
    TwoStepSpec Facade.unblockAccount "api/blocking/delete" ∧
    (∀ ntf, TwoStepSpec (fun t id => Facade.muteAccount t id ntf)
        "api/mute/create") ∧
    TwoStepSpec Facade.unmuteAccount "api/mute/delete" ∧
    TwoStepSpec Facade.acceptFollowRequest "/api/following/requests/accept" ∧
    TwoStepSpec Facade.rejectFollowRequest "/api/following/requests/reject" := by
  unfold TwoStepSpec
  refine ⟨fun r => ⟨fun t id e h => ?_, fun t id e h1 h2 => ?_⟩,
    ⟨fun t id e h => ?_, fun t id e h1 h2 => ?_⟩,
    ⟨fun t id e h => ?_, fun t id e h1 h2 => ?_⟩,
    ⟨fun t id e h => ?_, fun t id e h1 h2 => ?_⟩,
    fun ntf => ⟨fun t id e h => ?_, fun t id e h1 h2 => ?_⟩,
    ⟨fun t id e h => ?_, fun t id e h1 h2 => ?_⟩,
    ⟨fun t id e h => ?_, fun t id e h1 h2 => ?_⟩,
    ⟨fun t id e h => ?_, fun t id e h1 h2 => ?_⟩⟩ <;>
  simp_all [Facade.followAccount, Facade.unfollowAccount, Facade.blockAccount,
    Facade.unblockAccount, Facade.muteAccount, Facade.unmuteAccount,
    Facade.acceptFollowRequest, Facade.rejectFollowRequest]

/-- C7 witness: with a transport failing every call, followAccount stops
after the create call and surfaces its failure unchanged; with a transport
where only the relationship fetch fails, blockAccount issues both calls and
fails overall. -/
theorem twoStep_short_circuit_witness :
    Facade.followAccount failT "u1" false =
      ([⟨"api/following/create", userIdParams "u1"⟩],
        .error (.transport 500 "boom")) ∧
    Facade.blockAccount flakyT "u2" =
      ([⟨"api/blocking/create", userIdParams "u2"⟩, relationCall "u2"],
        .error (.transport 502 "relation down")) :=
  ⟨(twoStep_short_circuit.1 false).1 failT "u1" (.transport 500 "boom") rfl,
   twoStep_short_circuit.2.2.1.2 flakyT "u2" (.transport 502 "relation down")
     rfl rfl⟩

/-- C8: votePoll with a falsy `status_id` (absent or empty) rejects with
`ArgumentError` — not the NotSupported error — and issues no transport call;
with a truthy `status_id` the vote call is the first call attempted against
the backend. -/
theorem votePoll_argument_gate :
    (∀ t id choices sid now, truthyStr sid = false →
        Facade.votePoll t id choices sid now =
          ([], .error (.argument "status_id is required"))) ∧
    (∀ t id choices s now, s ≠ "" →
        (Facade.votePoll t id choices (some s) now).1.head? =
          some ⟨"/api/notes/polls/vote",
            [("noteId", PVal.str s), ("choice", pnum (choices.get? 0))]⟩) := by
  constructor
  · intro t id choices sid now h
    simp [Facade.votePoll, h]
  · intro t id choices s now h
    simp only [Facade.votePoll, truthyStr, Option.getD]
    rw [if_pos (by simpa using h)]
    split
    · rfl
    · split
      · rfl
      · split <;> rfl

/-- C8 witness: with no `status_id` the concrete call rejects with
`ArgumentError` and an empty call list; with `status_id = "n1"` the vote call
is issued first. -/
theorem votePoll_argument_gate_witness :
    Facade.votePoll okT "x" [1] none 0 =
      ([], .error (.argument "status_id is required")) ∧
    (Facade.votePoll okT "x" [1] (some "n1") 0).1.head? =
      some ⟨"/api/notes/polls/vote",
        [("noteId", PVal.str "n1"), ("choice", PVal.num 1)]⟩ :=
  ⟨votePoll_argument_gate.1 okT "x" [1] none 0 rfl,
   votePoll_argument_gate.2 okT "x" [1] "n1" 0 (by decide)⟩

/-- C9 counterexample: the caller supplies `limit = 0` to getFavourites, yet
the encoded body carries no `limit` key at all — the JavaScript truthiness
test `if (limit)` drops falsy supplied values, so the body does not contain
exactly the keys for the parameters actually supplied. -/
theorem pagination_limit_zero_dropped :
    Facade.getFavouritesParams (some 0) none none = [] ∧
    hasKey (Facade.getFavouritesParams (some 0) none none) "limit" = false :=
  ⟨rfl, rfl⟩

/-- Key membership of a singleton-or-empty conditional chunk. -/
theorem hasKey_single (k k' : String) (v : PVal) (c : Bool) :
    hasKey (if c then [(k, v)] else []) k' = (c && decide (k = k')) := by
  cases c <;> simp [hasKey]

/-- Key membership distributes over body concatenation. -/
theorem hasKey_append (a b : List (String × PVal)) (k : String) :
    hasKey (a ++ b) k = (hasKey a k || hasKey b k) := by
  simp [hasKey, List.any_append]

/-- Key membership through a leading constant entry. -/
theorem hasKey_cons (k k' : String) (v : PVal) (ps : List (String × PVal)) :
    hasKey ((k, v) :: ps) k' = (decide (k = k') || hasKey ps k') := by
  simp [hasKey]

/-- C9 amended: for getFavourites, getHomeTimeline and getConversationTimeline
the outgoing body contains a pagination key exactly when the caller supplied
that parameter with a truthy value (nonzero `limit`, nonempty cursor string);
omitted — or falsy-supplied — parameters are never encoded with a default.
The constant non-pagination keys (`withFiles: false` on the home timeline,
`visibility: 'specified'` on the conversation timeline) are always present,
and each operation issues exactly its one encoded call. -/
theorem pagination_truthy_amended :
    (∀ l m mi, hasKey (Facade.getFavouritesParams l m mi) "limit" = truthyInt l ∧
        hasKey (Facade.getFavouritesParams l m mi) "untilId" = truthyStr m ∧
        hasKey (Facade.getFavouritesParams l m mi) "sinceId" = truthyStr mi) ∧
    (∀ l m s, hasKey (Facade.getHomeTimelineParams l m s) "limit" = truthyInt l ∧
        hasKey (Facade.getHomeTimelineParams l m s) "untilId" = truthyStr m ∧
        hasKey (Facade.getHomeTimelineParams l m s) "sinceId" = truthyStr s ∧
        hasKey (Facade.getHomeTimelineParams l m s) "withFiles" = true) ∧
    (∀ l m s, hasKey (Facade.getConversationTimelineParams l m s) "limit" = truthyInt l ∧
        hasKey (Facade.getConversationTimelineParams l m s) "untilId" = truthyStr m ∧
        hasKey (Facade.getConversationTimelineParams l m s) "sinceId" = truthyStr s ∧
        hasKey (Facade.getConversationTimelineParams l m s) "visibility" = true) ∧
    (∀ t l m mi now, (Facade.getFavourites t l m mi now).1 =
        [⟨"/api/i/favorites", Facade.getFavouritesParams l m mi⟩]) ∧
    (∀ t lo l m s mi now, (Facade.getHomeTimeline t lo l m s mi now).1 =
        [⟨"/api/notes/timeline", Facade.getHomeTimelineParams l m s⟩]) ∧
    (∀ t l m s mi now, (Facade.getConversationTimeline t l m s mi now).1 =
        [⟨"/api/notes/mentions", Facade.getConversationTimelineParams l m s⟩]) := by
  refine ⟨fun l m mi => ⟨?_, ?_, ?_⟩, fun l m s => ⟨?_, ?_, ?_, ?_⟩,
    fun l m s => ⟨?_, ?_, ?_, ?_⟩, fun t l m mi now => ?_,
    fun t lo l m s mi now => ?_, fun t l m s mi now => ?_⟩
  all_goals try (simp [Facade.getFavouritesParams, Facade.getHomeTimelineParams,
    Facade.getConversationTimelineParams, hasKey_append, hasKey_single,
    hasKey_cons]; done)
  all_goals simp only [Facade.getFavourites, Facade.getHomeTimeline,
    Facade.getConversationTimeline]
  all_goals split <;> rfl

/-- C10: the façade operations that take an array argument use only its first
element — for any longer array the whole operation behaves identically to the
one-element array holding the first element: getRelationship encodes
`ids[0]`, addAccountsToList and deleteAccountsFromList encode
`account_ids[0]`, and votePoll submits `choices[0]`. -/
theorem array_first_element_only :
    (∀ t a rest, Facade.getRelationship t (a :: rest) =
        Facade.getRelationship t [a]) ∧
    (∀ t id a rest, Facade.addAccountsToList t id (a :: rest) =
        Facade.addAccountsToList t id [a]) ∧
    (∀ t id a rest, Facade.deleteAccountsFromList t id (a :: rest) =
        Facade.deleteAccountsFromList t id [a]) ∧
    (∀ t id a rest sid now, Facade.votePoll t id (a :: rest) sid now =
        Facade.votePoll t id [a] sid now) :=
  ⟨fun _ _ _ => rfl, fun _ _ _ _ => rfl, fun _ _ _ _ => rfl,
   fun _ _ _ _ _ _ => rfl⟩

end Megalodon
